import Mathlib

/-!
Shallow embedding of the supply-chain agent system
(`server/main_orchestrator.py`, `server/agents/supplier_agent.py`,
`server/agents/demand_agent.py`, `server/agents/logistics_agent.py`).

Python strings are modelled as Lean `String`s (lists of characters);
Python's float risk scores are modelled as `ℚ`; Python dictionaries with
optional keys are modelled as structures of `Option` fields; a missing
data file (`FileNotFoundError`) is modelled as `none` in the environment.
-/

/-! ### Generic string helpers mirroring Python primitives -/

/-- Python's decimal digit value of a character (`int` parsing works on
characters `'0'`–`'9'`). -/
def digitVal (c : Char) : Nat := c.toNat - 48

/-- Boolean test that `sub` occurs at the very front of `s`. -/
def startsWith : List Char → List Char → Bool
  | [], _ => true
  | _ :: _, [] => false
  | a :: as, b :: bs => a == b && startsWith as bs

/-- Python's substring containment `sub in s`, on character lists. -/
def containsSub (sub : List Char) : List Char → Bool
  | [] => sub.isEmpty
  | c :: t => startsWith sub (c :: t) || containsSub sub t

/-- Python's substring containment `sub in s` on strings. -/
def strContains (sub s : String) : Bool := containsSub sub.data s.data

/-- The first maximal run of decimal digits in a character list, as found by
`re.findall(r"\d+", s)[0]`; `none` when the string holds no digit. -/
def firstDigitRun : List Char → Option (List Char)
  | [] => none
  | c :: t => if c.isDigit then some (c :: t.takeWhile Char.isDigit) else firstDigitRun t

/-- Decimal value of a digit run, as computed by Python's `int`. -/
def valOfDigits (ds : List Char) : Nat := ds.foldl (fun a c => a * 10 + digitVal c) 0

/-- The first integer token of a character list:
`int(re.findall(r"\d+", s)[0])` when a digit occurs, else `none`. -/
def firstNumber (cs : List Char) : Option Nat := (firstDigitRun cs).map valOfDigits

/-- Fuel-driven core of the decimal printer: emits the big-endian digit
characters of `n` in front of `acc`; `fuel > n` always suffices. -/
def natCharsAux : Nat → Nat → List Char → List Char
  | 0, _, acc => acc
  | fuel + 1, n, acc =>
    if n < 10 then Nat.digitChar n :: acc
    else natCharsAux fuel (n / 10) (Nat.digitChar (n % 10) :: acc)

/-- Decimal rendering of a natural number, as Python's `str` of a
non-negative `int`: big-endian digit characters, `"0"` for zero. -/
def natChars (n : Nat) : List Char := natCharsAux (n + 1) n []

/-- Decimal rendering of an integer, as Python's `str` of an `int`. -/
def intChars (i : Int) : List Char :=
  if i < 0 then '-' :: natChars i.natAbs else natChars i.natAbs

/-! ### Data model (`suppliers.csv` rows and the news-agent result dict) -/

/-- One row of the supplier table read by `find_at_risk_suppliers`
(`supplier_agent.py`): columns used by the orchestrator. -/
structure Supplier where
  supplier_id : Nat
  supplier_name : String
  country : String
  production_status : String
  risk_score : ℚ
deriving DecidableEq

/-- Fixed configuration constant of `supplier_agent.py`:
`RISK_THRESHOLD = 7.0`. -/
def RISK_THRESHOLD : ℚ := 7

/-- Result dictionary of `get_risk_summary` (`risk_agent.py`): either an
`error` entry, or optional `summary` / `risk_category` / `key_entities`
entries; each field is `none` when the key is absent from the dict. -/
structure RiskSummaryData where
  error : Option String
  summary : Option String
  risk_category : Option String
  key_entities : Option (List String)

/-! ### Supplier Risk Filter (`supplier_agent.py`, `find_at_risk_suppliers`) -/

/-- The filter of `find_at_risk_suppliers`: keeps rows with
`production_status != 'OK'` or `risk_score >= RISK_THRESHOLD`.  The source
catches `FileNotFoundError` from `pd.read_csv` and returns an empty
DataFrame; a missing supplier file is modelled as the `none` source. -/
def find_at_risk_suppliers (src : Option (List Supplier)) : List Supplier :=
  match src with
  | none => []
  | some df =>
    df.filter (fun s => (s.production_status != "OK") || decide (s.risk_score ≥ RISK_THRESHOLD))

/-! ### Risk Aggregator pieces (`main_orchestrator.py`, lines 74–116) -/

/-- News-signal handling of `run_supply_chain_analysis` (lines 75–88):
returns the score bonus together with the displayed
`(news_summary_text, risk_category, key_entities)`. -/
def processNews (risk_summary_data : RiskSummaryData) : ℚ × String × String × List String :=
  match risk_summary_data.error with
  | some e => (0, e, "Error", [])
  | none =>
    let risk_category := risk_summary_data.risk_category.getD "Other"
    let bonus : ℚ :=
      if risk_category ∈ ["Logistics", "Natural Disaster", "Geopolitical"] then 5
      else if risk_category = "Financial" then 2
      else 0
    (bonus, risk_summary_data.summary.getD "N/A", risk_category,
      risk_summary_data.key_entities.getD [])

/-- Demand-signal bonus of `run_supply_chain_analysis` (lines 93–101):
fires when the forecast string is non-empty (Python truthiness) and holds
the substring `"increase"`; the percentage is the first integer token. -/
def demandBonus (demand_forecast_info : String) : ℚ :=
  if demand_forecast_info ≠ "" ∧ strContains "increase" demand_forecast_info = true then
    match firstNumber demand_forecast_info.data with
    | some percent_increase =>
      if percent_increase > 25 then 5
      else if percent_increase > 10 then 2
      else 0
    | none => 0
  else 0

/-- Logistics-signal bonus of `run_supply_chain_analysis` (lines 104–106):
`+3` when the info string is non-empty and holds `"Delayed"`. -/
def logisticsBonus (logistics_alert_info : String) : ℚ :=
  if logistics_alert_info ≠ "" ∧ strContains "Delayed" logistics_alert_info = true then 3
  else 0

/-- Priority tier of `run_supply_chain_analysis` (lines 109–116). -/
def priority_level (final_score : ℚ) : String :=
  if final_score > 15 then "🔴 CRITICAL"
  else if final_score > 10 then "🟠 HIGH"
  else if final_score > 5 then "🟡 MEDIUM"
  else "🟢 LOW"

/-- The final score accumulated by lines 54 and 75–106: the base
`risk_score` plus the three additive signal bonuses. -/
def final_score_of (base : ℚ) (news : RiskSummaryData) (demand logi : String) : ℚ :=
  base + (processNews news).1 + demandBonus demand + logisticsBonus logi

/-! ### Demand collector format string (`demand_agent.py`, lines 58–65) -/

/-- The forecast sentence assembled by `get_demand_forecast` once a model
prediction exists: `trend` is `"increase"` when the rounded percentage
change is `>= 0`, else `"decrease"`, and the projected units figure
`~N units/week` is printed before the percentage. -/
def forecast_statement (product_name : String) (predicted_sales percentage_change : Int) :
    String :=
  let trend := if 0 ≤ percentage_change then "increase" else "decrease"
  String.mk
    ("DEMAND FORECAST for '".data ++ product_name.data
      ++ "': Sales are projected to be ~".data ++ intChars predicted_sales
      ++ " units/week in 4 weeks, a ".data ++ intChars percentage_change
      ++ "% ".data ++ trend.data ++ " from current levels.".data)

/-! ### Orchestrator (`main_orchestrator.py`, `run_supply_chain_analysis`) -/

/-- The fixed upstream state a run observes: the supplier source (`none`
models a missing `suppliers.csv`), the three collectors' responses and
the country resolver (`get_country_code`, backed by pycountry). -/
structure Env where
  suppliers : Option (List Supplier)
  demand : Nat → String
  logistics : Nat → String
  news : String → String → String → String → RiskSummaryData
  country_code : String → String

/-- The per-supplier loop body of `run_supply_chain_analysis`
(lines 49–131): gathers the three signals, computes the final score and
priority tier, and assembles the alert string. -/
def supplier_alert (env : Env) (user_api_key user_project_id : String)
    (supplier : Supplier) : String :=
  let demand_forecast_info := env.demand supplier.supplier_id
  let logistics_alert_info := env.logistics supplier.supplier_id
  let topic :=
    if supplier.production_status = "DELAYED" then "shipping delay OR port congestion"
    else "supply chain disruption OR factory shutdown"
  let country_code := env.country_code supplier.country
  let risk_summary_data := env.news topic country_code user_api_key user_project_id
  let news_out := processNews risk_summary_data
  let final_score :=
    final_score_of supplier.risk_score risk_summary_data demand_forecast_info
      logistics_alert_info
  priority_level final_score ++ " ALERT FOR: " ++ supplier.supplier_name.toUpper ++ "\n"
    ++ "   - Supplier Status: " ++ supplier.production_status
    ++ " (Internal Risk Score: " ++ toString supplier.risk_score ++ ")\n"
    ++ (if demand_forecast_info ≠ "" then "   - " ++ demand_forecast_info ++ "\n" else "")
    ++ (if logistics_alert_info ≠ "" then "   - " ++ logistics_alert_info ++ "\n" else "")
    ++ "   - External Risk Category: " ++ news_out.2.2.1 ++ "\n"
    ++ "   - Key Entities: " ++ String.intercalate ", " news_out.2.2.2 ++ "\n"
    ++ "   - News Summary: " ++ news_out.2.1 ++ "\n"

/-- The sentinel message of lines 44 and 134. -/
def no_risk_message : String := "✅ Analysis Complete: No high-risk suppliers found."

/-- `run_supply_chain_analysis` (lines 33–138): filters at-risk suppliers,
returns the sentinel when none qualify, otherwise one alert per supplier
in the filter's order (the trailing `if not alerts` guard of line 133 is
kept from the source). -/
def run_supply_chain_analysis (env : Env) (user_api_key user_project_id : String) :
    List String :=
  let at_risk_suppliers := find_at_risk_suppliers env.suppliers
  if at_risk_suppliers.isEmpty then [no_risk_message]
  else
    let alerts := at_risk_suppliers.map (supplier_alert env user_api_key user_project_id)
    if alerts.isEmpty then [no_risk_message] else alerts

/-! ### Helper lemmas: decimal printing -/

lemma digitChar_isDigit {d : Nat} (h : d < 10) : (Nat.digitChar d).isDigit = true := by
  interval_cases d <;> decide

lemma digitVal_digitChar {d : Nat} (h : d < 10) : digitVal (Nat.digitChar d) = d := by
  interval_cases d <;> decide

lemma natCharsAux_fuel : ∀ fuel fuel' n acc, n < fuel → n < fuel' →
    natCharsAux fuel n acc = natCharsAux fuel' n acc := by
  intro fuel
  induction fuel with
  | zero => intro fuel' n acc h _; omega
  | succ fuel ih =>
    intro fuel' n acc h h'
    cases fuel' with
    | zero => omega
    | succ fuel' =>
      by_cases h10 : n < 10
      · simp [natCharsAux, h10]
      · simp only [natCharsAux, if_neg h10]
        exact ih fuel' (n / 10) _ (by omega) (by omega)

lemma natCharsAux_append : ∀ fuel n acc, n < fuel →
    natCharsAux fuel n acc = natCharsAux fuel n [] ++ acc := by
  intro fuel
  induction fuel with
  | zero => intro n acc h; omega
  | succ fuel ih =>
    intro n acc h
    by_cases h10 : n < 10
    · simp [natCharsAux, h10]
    · simp only [natCharsAux, if_neg h10]
      rw [ih (n / 10) _ (by omega), ih (n / 10) [Nat.digitChar (n % 10)] (by omega)]
      simp

lemma natChars_of_lt {n : Nat} (h : n < 10) : natChars n = [Nat.digitChar n] := by
  simp [natChars, natCharsAux, h]

lemma natChars_of_ge {n : Nat} (h : 10 ≤ n) :
    natChars n = natChars (n / 10) ++ [Nat.digitChar (n % 10)] := by
  have h0 : ¬ n < 10 := by omega
  rw [natChars, natCharsAux, if_neg h0,
    natCharsAux_fuel n (n / 10 + 1) (n / 10) _ (by omega) (by omega),
    natCharsAux_append (n / 10 + 1) (n / 10) _ (by omega)]
  rfl

lemma natChars_ne_nil (n : Nat) : natChars n ≠ [] := by
  by_cases h : n < 10
  · simp [natChars_of_lt h]
  · simp [natChars_of_ge (by omega : 10 ≤ n)]

lemma natChars_all_digits (n : Nat) : ∀ c ∈ natChars n, c.isDigit = true := by
  induction n using Nat.strong_induction_on with
  | _ n ih =>
    by_cases h : n < 10
    · rw [natChars_of_lt h]
      intro c hc
      rw [List.mem_singleton] at hc
      exact hc ▸ digitChar_isDigit h
    · rw [natChars_of_ge (by omega : 10 ≤ n)]
      intro c hc
      rcases List.mem_append.1 hc with hc | hc
      · exact ih (n / 10) (by omega) c hc
      · rw [List.mem_singleton] at hc
        exact hc ▸ digitChar_isDigit (Nat.mod_lt n (by omega))

lemma valOfDigits_append_one (A : List Char) (d : Char) :
    valOfDigits (A ++ [d]) = valOfDigits A * 10 + digitVal d := by
  simp [valOfDigits, List.foldl_append]

lemma valOfDigits_natChars (n : Nat) : valOfDigits (natChars n) = n := by
  induction n using Nat.strong_induction_on with
  | _ n ih =>
    by_cases h : n < 10
    · rw [natChars_of_lt h]
      simp [valOfDigits, digitVal_digitChar h]
    · rw [natChars_of_ge (by omega : 10 ≤ n), valOfDigits_append_one,
        ih (n / 10) (by omega), digitVal_digitChar (Nat.mod_lt n (by omega))]
      omega

/-! ### Helper lemmas: digit-run scanning and substring containment -/

lemma firstDigitRun_append_no_digit : ∀ (p cs : List Char),
    (∀ c ∈ p, c.isDigit = false) → firstDigitRun (p ++ cs) = firstDigitRun cs := by
  intro p
  induction p with
  | nil => intro cs _; rfl
  | cons x p ih =>
    intro cs h
    have hx : x.isDigit = false := h x (List.mem_cons_self x p)
    simp only [List.cons_append, firstDigitRun, hx]
    simp only [Bool.false_eq_true, if_false]
    exact ih cs fun c hc => h c (List.mem_cons_of_mem x hc)

lemma takeWhile_append_digits : ∀ (ds rest : List Char),
    (∀ c ∈ ds, c.isDigit = true) →
    List.takeWhile Char.isDigit (ds ++ rest) = ds ++ List.takeWhile Char.isDigit rest := by
  intro ds
  induction ds with
  | nil => intro rest _; rfl
  | cons d ds ih =>
    intro rest h
    have hd : d.isDigit = true := h d (List.mem_cons_self d ds)
    simp only [List.cons_append, List.takeWhile_cons_of_pos hd]
    rw [ih rest fun c hc => h c (List.mem_cons_of_mem d hc)]

lemma firstDigitRun_digits (ds rest : List Char) (hne : ds ≠ [])
    (h : ∀ c ∈ ds, c.isDigit = true) :
    firstDigitRun (ds ++ rest) = some (ds ++ List.takeWhile Char.isDigit rest) := by
  cases ds with
  | nil => exact absurd rfl hne
  | cons d ds =>
    have hd : d.isDigit = true := h d (List.mem_cons_self d ds)
    simp only [List.cons_append, firstDigitRun, hd, if_true, List.append_eq]
    rw [takeWhile_append_digits ds rest fun c hc => h c (List.mem_cons_of_mem d hc)]

lemma startsWith_self_append : ∀ (sub q : List Char), startsWith sub (sub ++ q) = true := by
  intro sub
  induction sub with
  | nil => intro q; rfl
  | cons a sub ih =>
    intro q
    simp only [List.cons_append, startsWith, beq_self_eq_true, Bool.true_and]
    exact ih q

lemma containsSub_self_append (sub q : List Char) : containsSub sub (sub ++ q) = true := by
  cases sub with
  | nil =>
    cases q with
    | nil => rfl
    | cons c t => simp [containsSub, startsWith]
  | cons a sub =>
    simp only [List.cons_append, containsSub, Bool.or_eq_true]
    exact Or.inl (startsWith_self_append (a :: sub) q)

lemma containsSub_append_left : ∀ (p cs sub : List Char),
    containsSub sub cs = true → containsSub sub (p ++ cs) = true := by
  intro p
  induction p with
  | nil => intro cs sub h; exact h
  | cons x p ih =>
    intro cs sub h
    simp only [List.cons_append, containsSub, Bool.or_eq_true]
    exact Or.inr (ih cs sub h)

lemma containsSub_nil_right (sub : List Char) (hne : sub ≠ []) :
    containsSub sub [] = false := by
  cases sub with
  | nil => exact absurd rfl hne
  | cons a sub => rfl

/-! ### Helper lemmas: bonuses are non-negative -/

lemma processNews_bonus_nonneg (d : RiskSummaryData) : 0 ≤ (processNews d).1 := by
  rcases d with ⟨error, summary, risk_category, key_entities⟩
  cases error with
  | some e => simp [processNews]
  | none =>
    simp only [processNews]
    split_ifs <;> norm_num

lemma demandBonus_nonneg (info : String) : 0 ≤ demandBonus info := by
  rw [demandBonus]
  split_ifs
  · cases firstNumber info.data with
    | none => norm_num
    | some n =>
      simp only
      split_ifs <;> norm_num
  · norm_num

lemma logisticsBonus_nonneg (info : String) : 0 ≤ logisticsBonus info := by
  rw [logisticsBonus]
  split_ifs <;> norm_num

/-! ### Claim theorems -/

/-- C1: the priority tier is chosen by the first matching condition in
descending order — `score > 15` yields CRITICAL, otherwise `score > 10`
yields HIGH, otherwise `score > 5` yields MEDIUM, otherwise LOW; exactly
15.0 yields HIGH, 15.01 yields CRITICAL, exactly 5.0 yields LOW, and 5.01
yields MEDIUM. -/
theorem priority_tier_first_match :
    (∀ s : ℚ, 15 < s → priority_level s = "🔴 CRITICAL")
    ∧ (∀ s : ℚ, 10 < s → s ≤ 15 → priority_level s = "🟠 HIGH")
    ∧ (∀ s : ℚ, 5 < s → s ≤ 10 → priority_level s = "🟡 MEDIUM")
    ∧ (∀ s : ℚ, s ≤ 5 → priority_level s = "🟢 LOW")
    ∧ priority_level 15 = "🟠 HIGH" ∧ priority_level (15.01 : ℚ) = "🔴 CRITICAL"
    ∧ priority_level 5 = "🟢 LOW" ∧ priority_level (5.01 : ℚ) = "🟡 MEDIUM" := by
  refine ⟨?_, ?_, ?_, ?_, ?_, ?_, ?_, ?_⟩ <;>
    first
      | (intro s h; rw [priority_level]; split_ifs <;> first | rfl | linarith)
      | (intro s h h'; rw [priority_level]; split_ifs <;> first | rfl | linarith)
      | (rw [priority_level]; norm_num)

/-- C1 witness: the theorem instantiated at scores 16, 12, 6 and 3. -/
theorem priority_tier_first_match_witness :
    priority_level 16 = "🔴 CRITICAL" ∧ priority_level 12 = "🟠 HIGH"
    ∧ priority_level 6 = "🟡 MEDIUM" ∧ priority_level 3 = "🟢 LOW" :=
  ⟨priority_tier_first_match.1 16 (by norm_num),
   priority_tier_first_match.2.1 12 (by norm_num) (by norm_num),
   priority_tier_first_match.2.2.1 6 (by norm_num) (by norm_num),
   priority_tier_first_match.2.2.2.1 3 (by norm_num)⟩

/-- C2: an error news signal records the error text as summary, category
"Error", empty entities and adds 0; otherwise the category is the result's
`risk_category` (default "Other" when absent) and the bonus is +5 for
Logistics/Natural Disaster/Geopolitical, +2 for Financial, +0 for every
other category. -/
theorem news_signal_spec (d : RiskSummaryData) :
    (∀ e, d.error = some e → processNews d = (0, e, "Error", []))
    ∧ (d.error = none → ∀ c, d.risk_category = some c →
        (processNews d).2.2.1 = c ∧
        (processNews d).1 =
          (if c = "Logistics" ∨ c = "Natural Disaster" ∨ c = "Geopolitical" then (5 : ℚ)
           else if c = "Financial" then 2 else 0))
    ∧ (d.error = none → d.risk_category = none →
        (processNews d).2.2.1 = "Other" ∧ (processNews d).1 = 0) := by
  rcases d with ⟨err, summ, cat, ents⟩
  refine ⟨?_, ?_, ?_⟩
  · intro e he
    simp only at he
    subst he
    simp [processNews]
  · intro herr c hcat
    simp only at herr hcat
    subst herr
    subst hcat
    constructor
    · simp [processNews]
    · simp only [processNews, Option.getD_some]
      simp [List.mem_cons]
  · intro herr hcat
    simp only at herr hcat
    subst herr
    subst hcat
    constructor
    · simp [processNews]
    · simp only [processNews, Option.getD_none]
      rw [if_neg (by decide), if_neg (by decide)]

/-- C2 witness: the theorem instantiated at an error dict and at a
Geopolitical result. -/
theorem news_signal_spec_witness :
    processNews ⟨some "boom", none, none, none⟩ = (0, "boom", "Error", [])
    ∧ (processNews ⟨none, some "S", some "Geopolitical", some ["X"]⟩).1 = 5 := by
  refine ⟨(news_signal_spec ⟨some "boom", none, none, none⟩).1 "boom" rfl, ?_⟩
  have h := (news_signal_spec ⟨none, some "S", some "Geopolitical", some ["X"]⟩).2.1 rfl
    "Geopolitical" rfl
  rw [h.2]
  norm_num

/-- C3: a present demand signal whose description holds "increase" and a
first integer token n scores +5 when n > 25, +2 when 10 < n ≤ 25 and +0
otherwise; an absent signal, a decrease description (no "increase"
substring) or a number-free description scores +0. -/
theorem demand_signal_spec (info : String) :
    (∀ n, strContains "increase" info = true → firstNumber info.data = some n →
        demandBonus info = (if n > 25 then (5 : ℚ) else if n > 10 then 2 else 0))
    ∧ (strContains "increase" info = false → demandBonus info = 0)
    ∧ (firstNumber info.data = none → demandBonus info = 0)
    ∧ demandBonus "" = 0
    ∧ demandBonus "DEMAND FORECAST for 'Gizmo': Sales are projected to be ~8 units/week in 4 weeks, a 10% decrease from current levels." = 0 := by
  refine ⟨?_, ?_, ?_, by decide, by decide⟩
  · intro n hc hn
    have hne : info ≠ "" := by
      intro h
      rw [h] at hc
      exact absurd hc (by decide)
    rw [demandBonus, if_pos ⟨hne, hc⟩, hn]
  · intro hc
    rw [demandBonus, if_neg]
    rintro ⟨-, hc'⟩
    rw [hc] at hc'
    exact Bool.false_ne_true hc'
  · intro hn
    rw [demandBonus]
    split_ifs
    · rw [hn]
    · rfl

/-- C3 witness: the theorem instantiated at descriptions with a 30%, a
12% and an 8% increase. -/
theorem demand_signal_spec_witness :
    demandBonus "a 30% increase" = 5 ∧ demandBonus "a 12% increase" = 2
    ∧ demandBonus "a 8% increase" = 0 := by
  have h30 := (demand_signal_spec "a 30% increase").1 30 (by decide) (by decide)
  have h12 := (demand_signal_spec "a 12% increase").1 12 (by decide) (by decide)
  have h8 := (demand_signal_spec "a 8% increase").1 8 (by decide) (by decide)
  norm_num at h30 h12 h8
  exact ⟨h30, h12, h8⟩

/-- C4: a present logistics signal whose description holds the literal
substring "Delayed" scores +3; every other case scores +0. -/
theorem logistics_signal_spec (info : String) :
    (info ≠ "" → strContains "Delayed" info = true → logisticsBonus info = 3)
    ∧ (strContains "Delayed" info = false → logisticsBonus info = 0)
    ∧ logisticsBonus "" = 0
    ∧ logisticsBonus "In Transit" = 0 := by
  refine ⟨?_, ?_, by decide, by decide⟩
  · intro hne hc
    rw [logisticsBonus, if_pos ⟨hne, hc⟩]
  · intro hc
    rw [logisticsBonus, if_neg]
    rintro ⟨-, hc'⟩
    rw [hc] at hc'
    exact Bool.false_ne_true hc'

/-- C4 witness: the theorem instantiated at a Delayed shipment line and
at an In Transit line. -/
theorem logistics_signal_spec_witness :
    logisticsBonus "LOGISTICS ALERT: Shipment S1 is currently Delayed on a High risk route." = 3
    ∧ logisticsBonus "LOGISTICS ALERT: Shipment S1 is currently In Transit on a Low risk route." = 0 :=
  ⟨(logistics_signal_spec _).1 (by decide) (by decide),
   (logistics_signal_spec _).2.1 (by decide)⟩

/-- C5: the Supplier Risk Filter keeps a supplier iff its production
status differs from the normal value "OK" or its base risk score is
`>= RISK_THRESHOLD` (= 7.0); when no supplier qualifies the result is the
empty set, not an error. -/
theorem supplier_filter_spec (df : List Supplier) (s : Supplier) :
    (s ∈ find_at_risk_suppliers (some df) ↔
      s ∈ df ∧ (s.production_status ≠ "OK" ∨ RISK_THRESHOLD ≤ s.risk_score))
    ∧ ((∀ t ∈ df, t.production_status = "OK" ∧ t.risk_score < RISK_THRESHOLD) →
      find_at_risk_suppliers (some df) = [])
    ∧ RISK_THRESHOLD = 7 := by
  refine ⟨?_, ?_, rfl⟩
  · simp [find_at_risk_suppliers, List.mem_filter, bne_iff_ne, ge_iff_le]
  · intro h
    rw [find_at_risk_suppliers]
    rw [List.filter_eq_nil_iff]
    intro t ht
    rcases h t ht with ⟨hok, hlt⟩
    simp [hok, bne_iff_ne, not_le.2 hlt]

/-- C5 witness: a delayed supplier is kept, a normal low-score supplier
set filters to empty. -/
theorem supplier_filter_spec_witness :
    (⟨2, "B", "China", "DELAYED", (3 : ℚ)⟩ : Supplier) ∈
      find_at_risk_suppliers (some [⟨2, "B", "China", "DELAYED", (3 : ℚ)⟩])
    ∧ find_at_risk_suppliers (some [⟨1, "A", "India", "OK", (3 : ℚ)⟩]) = [] := by
  constructor
  · exact (supplier_filter_spec [⟨2, "B", "China", "DELAYED", (3 : ℚ)⟩]
      ⟨2, "B", "China", "DELAYED", (3 : ℚ)⟩).1.mpr
      ⟨List.mem_singleton_self _, Or.inl (by decide)⟩
  · refine (supplier_filter_spec [⟨1, "A", "India", "OK", (3 : ℚ)⟩]
      ⟨1, "A", "India", "OK", (3 : ℚ)⟩).2.1 ?_
    intro t ht
    rw [List.mem_singleton] at ht
    subst ht
    exact ⟨rfl, by norm_num [RISK_THRESHOLD]⟩

/-- C6: the final score is at least the base score, and turning any one
signal from a non-qualifying state (bonus 0) into any other state never
decreases the final score, the other two signals and the base held fixed. -/
theorem aggregator_monotonic (base : ℚ) (nd nd' : RiskSummaryData) (d d' l l' : String) :
    base ≤ final_score_of base nd d l
    ∧ ((processNews nd).1 = 0 →
        final_score_of base nd d l ≤ final_score_of base nd' d l)
    ∧ (demandBonus d = 0 →
        final_score_of base nd d l ≤ final_score_of base nd d' l)
    ∧ (logisticsBonus l = 0 →
        final_score_of base nd d l ≤ final_score_of base nd d l') := by
  have hn := processNews_bonus_nonneg nd
  have hn' := processNews_bonus_nonneg nd'
  have hd := demandBonus_nonneg d
  have hd' := demandBonus_nonneg d'
  have hl := logisticsBonus_nonneg l
  have hl' := logisticsBonus_nonneg l'
  refine ⟨?_, ?_, ?_, ?_⟩
  · rw [final_score_of]; linarith
  · intro h0; rw [final_score_of, final_score_of, h0]; linarith
  · intro h0; rw [final_score_of, final_score_of, h0]; linarith
  · intro h0; rw [final_score_of, final_score_of, h0]; linarith

/-- C6 witness: the theorem instantiated at base 1, an error news dict
versus a Geopolitical one, an absent versus a 30%-increase demand signal,
and an absent versus a Delayed logistics signal. -/
theorem aggregator_monotonic_witness :
    (1 : ℚ) ≤ final_score_of 1 ⟨some "e", none, none, none⟩ "" ""
    ∧ final_score_of 1 ⟨some "e", none, none, none⟩ "" "" ≤
        final_score_of 1 ⟨none, none, some "Geopolitical", none⟩ "" ""
    ∧ final_score_of 1 ⟨some "e", none, none, none⟩ "" "" ≤
        final_score_of 1 ⟨some "e", none, none, none⟩ "a 30% increase" ""
    ∧ final_score_of 1 ⟨some "e", none, none, none⟩ "" "" ≤
        final_score_of 1 ⟨some "e", none, none, none⟩ "" "Delayed" := by
  have h := aggregator_monotonic 1 ⟨some "e", none, none, none⟩
    ⟨none, none, some "Geopolitical", none⟩ "" "a 30% increase" "" "Delayed"
  exact ⟨h.1, h.2.1 (by decide), h.2.2.1 (by decide), h.2.2.2 (by decide)⟩

/-- C7: whenever the at-risk supplier set is empty, the run returns
exactly the one-element sentinel list, whose element holds the substring
"No high-risk suppliers found"; the result is never empty. -/
theorem run_empty_sentinel (env : Env) (key pid : String) :
    (find_at_risk_suppliers env.suppliers = [] →
      run_supply_chain_analysis env key pid = [no_risk_message]
        ∧ strContains "No high-risk suppliers found" no_risk_message = true)
    ∧ run_supply_chain_analysis env key pid ≠ [] := by
  constructor
  · intro h
    refine ⟨?_, by decide⟩
    rw [run_supply_chain_analysis]
    simp [h]
  · rw [run_supply_chain_analysis]
    by_cases h : (find_at_risk_suppliers env.suppliers).isEmpty
    · simp [h]
    · by_cases h2 : (List.map (supplier_alert env key pid)
          (find_at_risk_suppliers env.suppliers)).isEmpty
      · simp [h, h2]
      · simp only [h, h2, Bool.false_eq_true, if_false]
        intro hcon
        rw [hcon] at h2
        exact h2 rfl

/-- C7 witness: the theorem instantiated at an environment whose supplier
table is present but empty. -/
theorem run_empty_sentinel_witness :
    run_supply_chain_analysis
      ⟨some [], fun _ => "", fun _ => "", fun _ _ _ _ => ⟨none, none, none, none⟩,
        fun _ => "us"⟩ "k" "p" = [no_risk_message] :=
  ((run_empty_sentinel ⟨some [], fun _ => "", fun _ => "",
      fun _ _ _ _ => ⟨none, none, none, none⟩, fun _ => "us"⟩ "k" "p").1 rfl).1

/-- C8 counterexample: with the supplier data source unavailable
(`FileNotFoundError`, modelled as the `none` source), `find_at_risk_suppliers`
returns the empty set and the run returns the normal one-element sentinel
list — no run-level error is propagated to the caller, contradicting the
claim that total source unavailability aborts the run. -/
theorem supplier_source_unavailable_counterexample :
    find_at_risk_suppliers none = []
    ∧ run_supply_chain_analysis
        ⟨none, fun _ => "", fun _ => "", fun _ _ _ _ => ⟨none, none, none, none⟩,
          fun _ => "us"⟩ "k" "p" = [no_risk_message] :=
  ⟨rfl, rfl⟩

/-- C8 amended: when the supplier data source is unavailable, the failure
is caught inside the filter, which yields the empty supplier set, and the
run returns the one-element "No high-risk suppliers found" sentinel
instead of propagating an error; per-supplier collector failures are likewise
non-fatal. -/
theorem supplier_source_unavailable_sentinel (env : Env) (key pid : String)
    (h : env.suppliers = none) :
    run_supply_chain_analysis env key pid = [no_risk_message] := by
  have hf : find_at_risk_suppliers env.suppliers = [] := by rw [h]; rfl
  rw [run_supply_chain_analysis]
  simp [hf]

/-- C8 amended witness: the theorem instantiated at an environment whose
supplier source is missing. -/
theorem supplier_source_unavailable_sentinel_witness :
    run_supply_chain_analysis
      ⟨none, fun _ => "x", fun _ => "y", fun _ _ _ _ => ⟨some "err", none, none, none⟩,
        fun _ => "in"⟩ "a" "b" = [no_risk_message] :=
  supplier_source_unavailable_sentinel _ "a" "b" rfl

/-- C9: the run is deterministic over its inputs — two calls observing the
same upstream data (supplier source and the three collectors' responses,
plus the country resolver) produce identical alert sequences. -/
theorem run_analysis_deterministic (e1 e2 : Env) (key pid : String)
    (hs : e1.suppliers = e2.suppliers)
    (hd : ∀ i, e1.demand i = e2.demand i)
    (hl : ∀ i, e1.logistics i = e2.logistics i)
    (hn : ∀ t c k p, e1.news t c k p = e2.news t c k p)
    (hc : ∀ c, e1.country_code c = e2.country_code c) :
    run_supply_chain_analysis e1 key pid = run_supply_chain_analysis e2 key pid := by
  have he : e1 = e2 := by
    rcases e1 with ⟨s1, d1, l1, n1, c1⟩
    rcases e2 with ⟨s2, d2, l2, n2, c2⟩
    simp only at hs hd hl hn hc
    simp only [Env.mk.injEq]
    exact ⟨hs, funext hd, funext hl,
      funext fun t => funext fun c => funext fun k => funext fun p => hn t c k p,
      funext hc⟩
  rw [he]

/-- C9 witness: the theorem instantiated at one concrete environment
given twice. -/
theorem run_analysis_deterministic_witness :
    run_supply_chain_analysis
      ⟨some [⟨1, "A", "India", "DELAYED", (8 : ℚ)⟩], fun _ => "", fun _ => "",
        fun _ _ _ _ => ⟨none, none, none, none⟩, fun _ => "in"⟩ "k" "p"
    = run_supply_chain_analysis
      ⟨some [⟨1, "A", "India", "DELAYED", (8 : ℚ)⟩], fun _ => "", fun _ => "",
        fun _ _ _ _ => ⟨none, none, none, none⟩, fun _ => "in"⟩ "k" "p" :=
  run_analysis_deterministic _ _ "k" "p" rfl (fun _ => rfl) (fun _ => rfl)
    (fun _ _ _ _ => rfl) (fun _ => rfl)

/-! ### C10 support: scanning the demand collector's format string -/

lemma data_mk (cs : List Char) : (String.mk cs).data = cs := rfl

lemma forecast_data (product_name : String) (N pct : Int) (hN : ¬ N < 0) (hpct : 0 ≤ pct) :
    (forecast_statement product_name N pct).data =
      ("DEMAND FORECAST for '".data ++ product_name.data
        ++ "': Sales are projected to be ~".data)
      ++ (natChars N.natAbs
        ++ (" units/week in 4 weeks, a ".data ++ natChars pct.natAbs ++ "% ".data
            ++ "increase".data ++ " from current levels.".data)) := by
  simp only [forecast_statement, intChars, if_neg hN, if_neg (show ¬ pct < 0 by omega),
    if_pos hpct, data_mk, List.append_assoc]

lemma forecast_prefix_no_digit (product_name : String)
    (hname : ∀ c ∈ product_name.data, c.isDigit = false) :
    ∀ c ∈ ("DEMAND FORECAST for '".data ++ product_name.data
      ++ "': Sales are projected to be ~".data), c.isDigit = false := by
  have hA : ∀ c ∈ "DEMAND FORECAST for '".data, c.isDigit = false := by decide
  have hB : ∀ c ∈ "': Sales are projected to be ~".data, c.isDigit = false := by decide
  intro c hc
  rcases List.mem_append.1 hc with hc | hc
  · rcases List.mem_append.1 hc with hc | hc
    · exact hA c hc
    · exact hname c hc
  · exact hB c hc

lemma firstNumber_forecast (product_name : String) (N pct : Int)
    (hname : ∀ c ∈ product_name.data, c.isDigit = false) (hN : 0 ≤ N) (hpct : 0 ≤ pct) :
    firstNumber (forecast_statement product_name N pct).data = some N.natAbs := by
  rw [firstNumber, forecast_data product_name N pct (by omega) hpct,
    firstDigitRun_append_no_digit _ _ (forecast_prefix_no_digit product_name hname),
    firstDigitRun_digits _ _ (natChars_ne_nil _) (natChars_all_digits _)]
  rw [show List.takeWhile Char.isDigit
      (" units/week in 4 weeks, a ".data ++ natChars pct.natAbs ++ "% ".data
        ++ "increase".data ++ " from current levels.".data) = ([] : List Char) from rfl]
  simp [valOfDigits_natChars]

lemma forecast_contains_increase (product_name : String) (N pct : Int)
    (hN : 0 ≤ N) (hpct : 0 ≤ pct) :
    strContains "increase" (forecast_statement product_name N pct) = true := by
  rw [strContains, forecast_data product_name N pct (by omega) hpct]
  simp only [List.append_assoc]
  apply containsSub_append_left
  apply containsSub_append_left
  apply containsSub_append_left
  apply containsSub_append_left
  apply containsSub_append_left
  apply containsSub_append_left
  apply containsSub_append_left
  exact containsSub_self_append _ _

/-- C10: for forecasts produced by the demand collector's own format
string with a digit-free product name, the first integer the aggregator
extracts is the projected weekly-units figure N, not the percentage; so
with an increase trend the demand bonus is +5 exactly when N > 25 (and +2
when 10 < N ≤ 25), independent of the percent change. -/
theorem demand_first_number_is_units (product_name : String) (N pct : Int)
    (hname : ∀ c ∈ product_name.data, c.isDigit = false)
    (hN : 0 ≤ N) (hpct : 0 ≤ pct) :
    firstNumber (forecast_statement product_name N pct).data = some N.toNat
    ∧ demandBonus (forecast_statement product_name N pct) =
        (if 25 < N then (5 : ℚ) else if 10 < N then 2 else 0) := by
  have habs : N.natAbs = N.toNat := by omega
  have hfirst := firstNumber_forecast product_name N pct hname hN hpct
  constructor
  · rw [hfirst, habs]
  · have hne : forecast_statement product_name N pct ≠ "" := by
      intro hcon
      have hnone : firstNumber ("" : String).data = none := rfl
      rw [hcon, hnone] at hfirst
      exact Option.noConfusion hfirst
    rw [demandBonus,
      if_pos ⟨hne, forecast_contains_increase product_name N pct hN hpct⟩, hfirst]
    simp only
    split_ifs <;> first | rfl | (exfalso; omega)

/-- C10 witness: the theorem instantiated at product "Alpha Smartwatch",
30 projected units and a 3% change: the extracted number is 30 (the
units), and the bonus is +5 although the percent change is only 3. -/
theorem demand_first_number_is_units_witness :
    firstNumber (forecast_statement "Alpha Smartwatch" 30 3).data = some 30
    ∧ demandBonus (forecast_statement "Alpha Smartwatch" 30 3) = 5 := by
  have h := demand_first_number_is_units "Alpha Smartwatch" 30 3 (by decide) (by decide)
    (by decide)
  refine ⟨by rw [h.1]; rfl, by rw [h.2]; norm_num⟩
